import Mathlib

/-!
Verification of the sunos moderation plugin (Akuma-real/sunos).

This file is a shallow embedding of the core of the plugin:

* `MessageBuilder.build_welcome_chain` and
  `MessageBuilder.build_blacklist_notification` (src/core/utils.py),
* `NotificationManager.should_send_notification` (src/core/utils.py),
* the sqlite-backed blacklist store `SunosDatabase` (src/core/database.py),
* the service layer `BlacklistService` (src/core/services.py),
* the event pipeline `GroupEventHandler.handle_member_join` and
  `GroupEventHandler.handle_member_leave` (src/core/handlers.py),
* the HTTP client retry loop `OneBotAdapter.make_request` and the typed
  wrapper `OneBotAdapter.kick_group_member` (src/core/onebot_adapter.py),
* the permission resolution step `PermissionManager.is_group_admin_async`
  (src/core/permissions.py).

Python string primitives used by the code (`str.split` on a literal
separator, `str.replace`, `str.strip`, `str.isdigit`, `int(...)`
validity) are modelled executably over `List Char` so that every
definition evaluates inside the kernel. Wall-clock readings
(`time.time()`) are modelled as exact rationals. Network and platform
calls are modelled by passing their observable outcome as an argument.
-/

namespace Sunos

/-! ### Python string primitives -/

/-- Whitespace test matching the default of the Python `str.strip`
(space, tab, newline, carriage return, vertical tab, form feed; more
exotic Unicode whitespace is not modelled). -/
def py_is_space (c : Char) : Bool :=
  c = ' ' || c = '\t' || c = '\n' || c = '\r' || c = '\x0b' || c = '\x0c'

/-- Python `str.strip()` with no argument: drop leading and trailing
whitespace. -/
def py_strip (s : String) : String :=
  String.mk (((s.data.dropWhile py_is_space).reverse.dropWhile py_is_space).reverse)

/-- ASCII decimal digit test; Python `str.isdigit` additionally accepts
some Unicode digit characters, which the repository never uses. -/
def py_is_digit (c : Char) : Bool :=
  '0' ≤ c && c ≤ '9'

/-- Python `str.isdigit`: non-empty and all digits. -/
def py_isdigit (s : String) : Bool :=
  !s.data.isEmpty && s.data.all py_is_digit

/-- If `sep` is a leading run of `l`, return the remainder of `l`. -/
def drop_sep_front : List Char → List Char → Option (List Char)
  | [], l => some l
  | _ :: _, [] => none
  | p :: ps, c :: cs => if p = c then drop_sep_front ps cs else none

/-- Fuel-driven worker for Python `str.split` on the non-empty literal
separator `s0 :: srest`: at each position, either the separator is a
leading run (cut here) or the head character is carried into the current
piece. Fuel at least the length of the list makes the fuel-exhausted
equation unreachable. -/
def py_split_go (s0 : Char) (srest : List Char) : Nat → List Char → List (List Char)
  | _, [] => [[]]
  | 0, l => [l]
  | fuel + 1, c :: cs =>
    match drop_sep_front (s0 :: srest) (c :: cs) with
    | some rest => [] :: py_split_go s0 srest fuel rest
    | none =>
      match py_split_go s0 srest fuel cs with
      | [] => [[c]]
      | h :: t => (c :: h) :: t

/-- Python `s.split(sep)` for a literal separator. Python raises on an
empty separator; the repository only ever splits on the literal
placeholder, so the empty-separator equation is arbitrary. -/
def py_split (s sep : String) : List String :=
  match sep.data with
  | [] => [s]
  | c :: cs => (py_split_go c cs s.data.length s.data).map String.mk

/-- Python `s.replace(old, new)` for a non-empty `old`: equal to joining
the `old`-split pieces with `new`. Python leaves `s` unchanged only when
`old` does not occur; for the empty `old` (never used here) the equation
is arbitrary. -/
def py_replace (s old new : String) : String :=
  match old.data with
  | [] => s
  | c :: cs => String.mk (List.intercalate new.data (py_split_go c cs s.data.length s.data))

/-! ### Message components and the welcome chain -/

/-- Message chain components of the hosting framework as used by the
plugin: a mention (`At qq`) or a text segment (`Plain text`). -/
inductive Comp where
  | At (qq : String)
  | Plain (text : String)
deriving DecidableEq, Repr

/-- Loop body of `MessageBuilder.build_welcome_chain` (src/core/utils.py,
the `for i, part in enumerate(parts)` loop): at split point `i > 0` emit
a mention, then for a non-empty part substitute the group placeholder and
emit the text unless it strips to nothing. -/
def build_welcome_chain_go (user_id group_id : String) : Nat → List String → List Comp
  | _, [] => []
  | i, part :: rest =>
    (if 0 < i then [Comp.At user_id] else [])
      ++ (if part ≠ "" then
            (let text := py_replace part "{group}" group_id
             if py_strip text ≠ "" then [Comp.Plain text] else [])
          else [])
      ++ build_welcome_chain_go user_id group_id (i + 1) rest

/-- Fixed default mention-plus-greeting chain, used both by
`build_welcome_chain` when rendering collapses to nothing and by the join
handler when no template is configured. -/
def default_welcome_chain (user_id : String) : List Comp :=
  [Comp.At user_id, Comp.Plain " 欢迎加入群聊！"]

/-- MessageBuilder.build_welcome_chain (src/core/utils.py): split the
template on the literal `{user}` placeholder, insert a mention at each
split point, substitute `{group}` in the remaining text segments, drop
segments that strip to nothing, and fall back to the default chain when
nothing remains. -/
def MessageBuilder.build_welcome_chain (welcome_msg user_id group_id : String) : List Comp :=
  let parts := py_split welcome_msg "{user}"
  let chain := build_welcome_chain_go user_id group_id 0 parts
  if chain = [] then default_welcome_chain user_id else chain

theorem py_strip_empty : py_strip "" = "" := rfl

theorem build_welcome_chain_go_no_empty_plain (user_id group_id : String) :
    ∀ (parts : List String) (i : Nat),
      Comp.Plain "" ∉ build_welcome_chain_go user_id group_id i parts := by
  intro parts
  induction parts with
  | nil => intro i; simp [build_welcome_chain_go]
  | cons p rest ih =>
    intro i
    simp only [build_welcome_chain_go, List.mem_append]
    push_neg
    refine ⟨⟨?_, ?_⟩, ih (i + 1)⟩
    · split <;> simp
    · split
      · split
        · rename_i htrim
          simp only [List.mem_singleton, Comp.Plain.injEq]
          intro he
          rw [← he] at htrim
          exact htrim py_strip_empty
        · simp
      · simp

theorem build_welcome_chain_no_empty_plain (welcome_msg user_id group_id : String) :
    Comp.Plain "" ∉ MessageBuilder.build_welcome_chain welcome_msg user_id group_id := by
  have h := build_welcome_chain_go_no_empty_plain user_id group_id (py_split welcome_msg "{user}") 0
  unfold MessageBuilder.build_welcome_chain
  by_cases hc : build_welcome_chain_go user_id group_id 0 (py_split welcome_msg "{user}") = []
  · simp [hc, default_welcome_chain]
  · simp only [hc, if_false]
    simpa [hc] using h

/-- C8: welcome-template rendering. The template
`"Hi {user}, welcome to {group}!"` with user `"123"` and group `"456"`
yields the mention of `123` followed by the text `", welcome to 456!"`
(preceded by the text before the placeholder) with no empty segment; the
template `"{user}"` alone yields only the mention with no trailing empty
text element; no rendering ever contains an empty text element; and a
rendering that collapses to nothing is replaced by the fixed default
mention-plus-greeting chain. -/
theorem c8_welcome_template_rendering :
    MessageBuilder.build_welcome_chain "Hi {user}, welcome to {group}!" "123" "456"
      = [Comp.Plain "Hi ", Comp.At "123", Comp.Plain ", welcome to 456!"]
    ∧ MessageBuilder.build_welcome_chain "{user}" "123" "456" = [Comp.At "123"]
    ∧ (∀ welcome_msg user_id group_id,
        Comp.Plain "" ∉ MessageBuilder.build_welcome_chain welcome_msg user_id group_id)
    ∧ MessageBuilder.build_welcome_chain " " "123" "456" = default_welcome_chain "123" := by
  refine ⟨by decide, by decide, build_welcome_chain_no_empty_plain, by decide⟩

/-- C8 witness: the universally quantified conjunct of
`c8_welcome_template_rendering` instantiated at a concrete template. -/
theorem c8_welcome_template_rendering_witness :
    Comp.Plain "" ∉ MessageBuilder.build_welcome_chain "hello {user}" "1" "2" :=
  c8_welcome_template_rendering.2.2.1 "hello {user}" "1" "2"

/-! ### Notification throttle -/

/-- Lookup in an association-list model of a Python dict, with a default
(the `dict.get(key, 0)` call sites use default `0`). -/
def dict_get_default (m : List (String × ℚ)) (k : String) (d : ℚ) : ℚ :=
  match m.find? (fun p => p.1 == k) with
  | some p => p.2
  | none => d

/-- Assignment `m[k] = v` on the association-list model of a dict:
replace the binding if present, append otherwise. -/
def dict_set (m : List (String × ℚ)) (k : String) (v : ℚ) : List (String × ℚ) :=
  match m with
  | [] => [(k, v)]
  | p :: rest => if p.1 == k then (k, v) :: rest else p :: dict_set rest k v

/-- NotificationManager (src/core/utils.py): a cooldown in seconds
(constructor default 30) and the dict of last emission times. Clock
readings from `time.time()` are modelled as exact rationals. -/
structure NotificationManager where
  cooldown : ℚ
  last_notification_time : List (String × ℚ)
deriving DecidableEq, Repr

/-- NotificationManager.should_send_notification (src/core/utils.py):
return true and record `current_time` when
`current_time - last_time >= cooldown` (missing key treated as 0),
otherwise return false and leave the state unchanged. -/
def NotificationManager.should_send_notification (mgr : NotificationManager)
    (notification_key : String) (current_time : ℚ) : Bool × NotificationManager :=
  let last_time := dict_get_default mgr.last_notification_time notification_key 0
  if current_time - last_time ≥ mgr.cooldown then
    (true,
     { mgr with
        last_notification_time :=
          dict_set mgr.last_notification_time notification_key current_time })
  else
    (false, mgr)

/-- Run a sequence of `should_send_notification` calls for one key at the
given times, threading the manager state, and collect the returned
booleans. -/
def notifications_run : NotificationManager → String → List ℚ → List Bool
  | _, _, [] => []
  | mgr, key, t :: ts =>
    let step := mgr.should_send_notification key t
    step.1 :: notifications_run step.2 key ts

theorem dict_get_default_set (m : List (String × ℚ)) (k : String) (v d : ℚ) :
    dict_get_default (dict_set m k v) k d = v := by
  induction m with
  | nil => simp [dict_set, dict_get_default]
  | cons p rest ih =>
    by_cases h : p.1 = k
    · simp [dict_set, dict_get_default, h]
    · simp only [dict_set, dict_get_default] at ih ⊢
      simp [h, ih]

theorem notifications_run_all_cold (key : String) (t : ℚ) :
    ∀ (ts : List ℚ) (mgr : NotificationManager),
      dict_get_default mgr.last_notification_time key 0 = t →
      (∀ u ∈ ts, u < t + mgr.cooldown) →
      notifications_run mgr key ts = List.replicate ts.length false := by
  intro ts
  induction ts with
  | nil => intro mgr _ _; rfl
  | cons u us ih =>
    intro mgr hlast hwin
    have hu : u < t + mgr.cooldown := hwin u (by simp)
    have hcold : ¬ (u - dict_get_default mgr.last_notification_time key 0 ≥ mgr.cooldown) := by
      rw [hlast]
      intro hge
      linarith
    simp only [notifications_run, NotificationManager.should_send_notification, hcold,
      if_false, List.length_cons, List.replicate_succ, List.cons.injEq]
    exact ⟨trivial, ih mgr hlast (fun v hv => hwin v (by simp [hv]))⟩

/-- C2: the notification throttle. The first conjunct characterises a
single call: it returns true exactly when `now` minus the recorded last
emission time (0 when absent) is at least the cooldown of 30 seconds.
The second conjunct shows a firing call records the current time. The
third shows a sequential burst `t :: ts` for one key that starts
eligible and stays inside the 30-second window beginning at `t` yields
exactly one notification. -/
theorem c2_notification_cooldown (mgr : NotificationManager) (key : String)
    (t : ℚ) (ts : List ℚ)
    (hcd : mgr.cooldown = 30)
    (hfirst : t - dict_get_default mgr.last_notification_time key 0 ≥ 30)
    (hwin : ∀ u ∈ ts, u < t + 30) :
    (∀ now : ℚ, ((mgr.should_send_notification key now).1 = true ↔
        now - dict_get_default mgr.last_notification_time key 0 ≥ 30))
    ∧ dict_get_default
        ((mgr.should_send_notification key t).2).last_notification_time key 0 = t
    ∧ (notifications_run mgr key (t :: ts)).count true = 1 := by
  have hfire : t - dict_get_default mgr.last_notification_time key 0 ≥ mgr.cooldown := by
    rw [hcd]; exact hfirst
  refine ⟨?_, ?_, ?_⟩
  · intro now
    simp only [NotificationManager.should_send_notification, hcd]
    split <;> simp_all
  · simp only [NotificationManager.should_send_notification, hfire, if_pos]
    exact dict_get_default_set _ _ _ _
  · have hstep :
        mgr.should_send_notification key t =
          (true,
           { mgr with
              last_notification_time :=
                dict_set mgr.last_notification_time key t }) := by
      simp [NotificationManager.should_send_notification, hfire]
    have hrest :
        notifications_run
          { mgr with
              last_notification_time :=
                dict_set mgr.last_notification_time key t } key ts
          = List.replicate ts.length false := by
      refine notifications_run_all_cold key t ts _ ?_ ?_
      · exact dict_get_default_set _ _ _ _
      · intro u hu
        rw [hcd]
        exact hwin u hu
    simp [notifications_run, hstep, hrest, List.count_replicate]

/-- C2 witness: a fresh manager with cooldown 30, a burst of three calls
for one key at times 100, 105 and 110 produces exactly one notification,
and the first call records time 100. -/
theorem c2_notification_cooldown_witness :
    (notifications_run ⟨30, []⟩ "blacklist_join_111" [100, 105, 110]).count true = 1 := by
  refine (c2_notification_cooldown ⟨30, []⟩ "blacklist_join_111" 100 [105, 110] rfl ?_ ?_).2.2
  · norm_num [dict_get_default]
  · intro u hu
    simp only [List.mem_cons, List.mem_singleton, List.not_mem_nil, or_false] at hu
    rcases hu with h | h <;> rw [h] <;> norm_num

/-! ### Blacklist store (src/core/database.py)

The `blacklist` table has columns `user_id TEXT`, `group_id TEXT`
(NULL meaning global scope), `reason`, `added_by`, `created_at`,
`updated_at` and the constraint `UNIQUE(user_id, group_id)`. A row is
modelled by `BlacklistRow`, the table by a list in rowid order (new
rows appended). Timestamps are modelled as naturals supplied by a `now`
argument standing for CURRENT_TIMESTAMP. Every `SunosDatabase` method
wraps its sqlite access in a try/except; the `fails` flag models a
store whose every access raises, which each method turns into its
documented fallback value. -/

structure BlacklistRow where
  user_id : String
  group_id : Option String
  reason : String
  added_by : String
  created_at : Nat
  updated_at : Nat
deriving DecidableEq, Repr

abbrev BlacklistTable := List BlacklistRow

/-- Conflict test of the sqlite constraint `UNIQUE(user_id, group_id)`
against a candidate `(user_id, group_id)` pair. Per the sqlite
documentation, NULL values in a unique index are considered distinct
from every other value including other NULLs, so a NULL `group_id`
never conflicts with anything. -/
def blacklist_unique_conflict (r : BlacklistRow) (user_id : String)
    (group_id : Option String) : Bool :=
  r.user_id == user_id &&
    match r.group_id, group_id with
    | some a, some b => a == b
    | _, _ => false

/-- Semantics of the `INSERT OR REPLACE INTO blacklist` statement in
`SunosDatabase.add_to_blacklist`: delete the rows that would violate
`UNIQUE(user_id, group_id)` (NULLs distinct), then append the new row.
The statement does not supply `created_at`, so a replaced row gets a
fresh default CURRENT_TIMESTAMP for it. -/
def blacklist_insert_or_replace (rows : BlacklistTable) (user_id added_by : String)
    (group_id : Option String) (reason : String) (now : Nat) : BlacklistTable :=
  rows.filter (fun r => !blacklist_unique_conflict r user_id group_id)
    ++ [⟨user_id, group_id, reason, added_by, now, now⟩]

/-- Database handle: the blacklist table plus a flag modelling a store
whose accesses all raise (every method catches the exception). -/
structure SunosDatabase where
  fails : Bool
  blacklist : BlacklistTable
deriving DecidableEq, Repr

/-- SunosDatabase.add_to_blacklist: returns True on success; on a store
error the exception is caught and False returned with the table
untouched. -/
def SunosDatabase.add_to_blacklist (db : SunosDatabase) (user_id added_by : String)
    (group_id : Option String) (reason : String) (now : Nat) : Bool × SunosDatabase :=
  if db.fails then (false, db)
  else (true,
    { db with
        blacklist := blacklist_insert_or_replace db.blacklist user_id added_by group_id reason now })

/-- SunosDatabase.is_in_blacklist: check the global scope first, then
the group scope when a non-empty `group_id` was supplied (the Python
`if group_id:` truthiness guard); any exception yields False. -/
def SunosDatabase.is_in_blacklist (db : SunosDatabase) (user_id : String)
    (group_id : Option String) : Bool :=
  if db.fails then false
  else if db.blacklist.any (fun r => r.user_id == user_id && r.group_id == none) then true
  else
    match group_id with
    | some g =>
      if g ≠ "" then
        db.blacklist.any (fun r => r.user_id == user_id && r.group_id == some g)
      else false
    | none => false

/-- Query part of `SunosDatabase.get_user_blacklist_info` on a healthy
store: when a non-empty `group_id` is supplied the group-scoped row is
fetched first and returned if present, with the global row as the
fallback; otherwise only the global row is fetched. `List.find?` models
`fetchone` on a query without ORDER BY, which sqlite serves in rowid
order. -/
def blacklist_info_query (rows : BlacklistTable) (user_id : String)
    (group_id : Option String) : Option BlacklistRow :=
  let global_row := rows.find? (fun r => r.user_id == user_id && r.group_id == none)
  match group_id with
  | some g =>
    if g ≠ "" then
      match rows.find? (fun r => r.user_id == user_id && r.group_id == some g) with
      | some r => some r
      | none => global_row
    else global_row
  | none => global_row

/-- SunosDatabase.get_user_blacklist_info: any exception yields None. -/
def SunosDatabase.get_user_blacklist_info (db : SunosDatabase) (user_id : String)
    (group_id : Option String) : Option BlacklistRow :=
  if db.fails then none
  else blacklist_info_query db.blacklist user_id group_id

/-- C4 (code bug): the blacklist upsert is NOT idempotent for the global
scope. Inserting the same `(user_id, NULL)` pair twice creates a second
row, because sqlite treats NULLs in `UNIQUE(user_id, group_id)` as
pairwise distinct, contradicting the comment on the schema (at most one
record per user per group or globally). For a non-NULL `group_id` the
upsert does behave as claimed: the second insert replaces the row and
updates its reason and timestamp. -/
theorem c4_null_upsert_duplicates :
    (((SunosDatabase.add_to_blacklist ⟨false, []⟩ "123" "admin" none "spam" 1).2
        |> fun db => SunosDatabase.add_to_blacklist db "123" "admin" none "spam again" 2).2).blacklist
      = [⟨"123", none, "spam", "admin", 1, 1⟩, ⟨"123", none, "spam again", "admin", 2, 2⟩]
    ∧ (((SunosDatabase.add_to_blacklist ⟨false, []⟩ "123" "admin" (some "777") "spam" 1).2
        |> fun db => SunosDatabase.add_to_blacklist db "123" "admin" (some "777") "spam again" 2).2).blacklist
      = [⟨"123", some "777", "spam again", "admin", 2, 2⟩] := by
  constructor <;> decide

/-- C9 fixture: a user with both a global entry and a group-scoped entry
for group 1. The global row was inserted first (lower rowid). -/
def c9_table : BlacklistTable :=
  [⟨"9", none, "global reason", "a1", 0, 0⟩,
   ⟨"9", some "1", "group reason", "a2", 1, 1⟩]

/-- C9 counterexample: when a user has both a global and a group-scoped
entry, the reporting lookup returns the GROUP-scoped entry, not the
global one: `get_user_blacklist_info` queries the group scope first and
only falls back to the global row when no group row exists, refuting the
claimed global precedence. -/
theorem c9_counterexample :
    SunosDatabase.get_user_blacklist_info ⟨false, c9_table⟩ "9" (some "1")
      = some ⟨"9", some "1", "group reason", "a2", 1, 1⟩
    ∧ (SunosDatabase.get_user_blacklist_info ⟨false, c9_table⟩ "9" (some "1")).map
        BlacklistRow.group_id ≠ some none := by
  constructor <;> decide

/-- C9 amended: for a non-empty group id, the reporting lookup returns
the first group-scoped entry when one exists (group scope takes
precedence for reporting), returns the global entry only as the
fallback when no group-scoped entry exists, and either scope alone
suffices to make the kick-triggering membership check true. -/
theorem c9_scope_precedence (rows : BlacklistTable) (u g : String) (hg : g ≠ "") :
    (∀ r, rows.find? (fun x => x.user_id == u && x.group_id == some g) = some r →
        SunosDatabase.get_user_blacklist_info ⟨false, rows⟩ u (some g) = some r)
    ∧ (rows.find? (fun x => x.user_id == u && x.group_id == some g) = none →
        SunosDatabase.get_user_blacklist_info ⟨false, rows⟩ u (some g)
          = rows.find? (fun x => x.user_id == u && x.group_id == none))
    ∧ SunosDatabase.is_in_blacklist ⟨false, rows⟩ u (some g)
        = (rows.any (fun x => x.user_id == u && x.group_id == none)
            || rows.any (fun x => x.user_id == u && x.group_id == some g)) := by
  refine ⟨?_, ?_, ?_⟩
  · intro r hr
    simp [SunosDatabase.get_user_blacklist_info, blacklist_info_query, hg, hr]
  · intro hr
    simp [SunosDatabase.get_user_blacklist_info, blacklist_info_query, hg, hr]
  · simp only [SunosDatabase.is_in_blacklist, if_false]
    by_cases hglob : rows.any (fun x => x.user_id == u && x.group_id == none)
    · simp [hglob]
    · simp [hglob, hg]

/-- C9 witness: the amended precedence applied to the fixture where both
scopes are populated. -/
theorem c9_scope_precedence_witness :
    SunosDatabase.get_user_blacklist_info ⟨false, c9_table⟩ "9" (some "1")
      = some ⟨"9", some "1", "group reason", "a2", 1, 1⟩ :=
  (c9_scope_precedence c9_table "9" "1" (by decide)).1
    ⟨"9", some "1", "group reason", "a2", 1, 1⟩ (by decide)

/-! ### Validation utilities and the blacklist service
(src/core/utils.py, src/core/services.py) -/

/-- ValidationUtils.validate_user_id: the id must be all digits. -/
def ValidationUtils.validate_user_id (user_id : String) : Bool :=
  py_isdigit user_id

/-- ValidationUtils.validate_input_length, reduced to its boolean
verdict: the text must be non-empty, not whitespace-only, and at most
`max_length` characters. -/
def ValidationUtils.validate_input_length (text : String) (max_length : Nat) : Bool :=
  !(text = "" || py_strip text = "") && text.length ≤ max_length

/-- BlacklistService.add_user_to_blacklist (src/core/services.py):
validate the user id and the reason length, refuse when the user is
already blacklisted in the requested scope, then upsert. Returns the
`(success, message)` pair together with the resulting store. -/
def BlacklistService.add_user_to_blacklist (db : SunosDatabase) (user_id added_by : String)
    (group_id : Option String) (reason : String) (now : Nat) :
    (Bool × String) × SunosDatabase :=
  if ¬ ValidationUtils.validate_user_id user_id then
    ((false, "用户ID必须是数字"), db)
  else if ¬ ValidationUtils.validate_input_length reason 200 then
    ((false, "原因不能为空或超长"), db)
  else if SunosDatabase.is_in_blacklist db user_id group_id then
    ((false, "用户 " ++ user_id ++ " 已在黑名单中"), db)
  else
    match SunosDatabase.add_to_blacklist db user_id added_by group_id reason now with
    | (true, db2) => ((true, "成功添加用户 " ++ user_id ++ " 到黑名单"), db2)
    | (false, db2) => ((false, "添加黑名单失败，请稍后重试"), db2)

/-- BlacklistService.is_user_blacklisted: passthrough to the store. -/
def BlacklistService.is_user_blacklisted (db : SunosDatabase) (user_id : String)
    (group_id : Option String) : Bool :=
  SunosDatabase.is_in_blacklist db user_id group_id

/-! ### Group event handlers (src/core/handlers.py) -/

/-- MessageBuilder.build_blacklist_notification (src/core/utils.py). -/
def MessageBuilder.build_blacklist_notification (user_id : String) (is_success : Bool)
    (reason error_msg : String) : List Comp :=
  if is_success then
    [Comp.Plain ("🚫 检测到黑名单用户 " ++ user_id ++ " 加入群聊\n"),
     Comp.Plain (if reason ≠ "" then "已自动踢出，原因：" ++ reason else "已自动踢出")]
  else
    [Comp.Plain ("⚠️ 检测到黑名单用户 " ++ user_id ++ " 加入群聊\n"),
     Comp.Plain "自动踢出失败，请管理员手动处理\n",
     Comp.Plain ("失败原因：" ++ error_msg ++ "\n"),
     Comp.Plain (if reason ≠ "" then "黑名单原因：" ++ reason else "黑名单用户")]

/-- Observable effects of one run of the join handler: whether the kick
call on the platform adapter was reached, the blacklist notification
chain if one was yielded, and the welcome chain if one was yielded. -/
structure JoinEffects where
  kick_attempted : Bool
  notification : Option (List Comp)
  welcome : Option (List Comp)
deriving DecidableEq, Repr

/-- GroupEventHandler.handle_member_join (src/core/handlers.py).
`welcome_msg` is the raw template from the welcome service,
`kick_result` the `(success, message)` pair of the platform-adapter kick
call (a network effect, passed in as data), and `should_notify` the
verdict of the notification throttle for the key
`blacklist_join_<group_id>`. A blacklisted member is kicked and possibly
reported; only a non-blacklisted member reaches the welcome branch,
where an absent or falsy template yields the default chain. -/
def GroupEventHandler.handle_member_join (db : SunosDatabase) (welcome_msg : Option String)
    (kick_result : Bool × String) (should_notify : Bool)
    (group_id user_id : String) : JoinEffects :=
  if user_id = "" then ⟨false, none, none⟩
  else if BlacklistService.is_user_blacklisted db user_id (some group_id) then
    let info := SunosDatabase.get_user_blacklist_info db user_id (some group_id)
    let reason := match info with
      | some r => if r.reason ≠ "" then r.reason else "黑名单用户"
      | none => ""
    let success := kick_result.1
    let notif :=
      if should_notify then
        some (MessageBuilder.build_blacklist_notification user_id success reason
          (if success then "" else kick_result.2))
      else none
    ⟨true, notif, none⟩
  else
    let chain := match welcome_msg with
      | some msg =>
        if msg ≠ "" then MessageBuilder.build_welcome_chain msg user_id group_id
        else default_welcome_chain user_id
      | none => default_welcome_chain user_id
    ⟨false, none, some chain⟩

/-- C1: a join by a blacklisted user (globally or for that group) never
produces a welcome message, whatever the kick outcome — the handler
attempts the kick and returns from the blacklist branch without reaching
the welcome branch. -/
theorem c1_blacklisted_never_welcomed (db : SunosDatabase) (welcome_msg : Option String)
    (kick_result : Bool × String) (should_notify : Bool) (group_id user_id : String)
    (hu : user_id ≠ "")
    (hbl : BlacklistService.is_user_blacklisted db user_id (some group_id) = true) :
    (GroupEventHandler.handle_member_join db welcome_msg kick_result should_notify
        group_id user_id).welcome = none
    ∧ (GroupEventHandler.handle_member_join db welcome_msg kick_result should_notify
        group_id user_id).kick_attempted = true := by
  simp [GroupEventHandler.handle_member_join, hu, hbl]

/-- C1 witness: a globally blacklisted user joining group 111 gets no
welcome even though the kick fails. -/
theorem c1_blacklisted_never_welcomed_witness :
    (GroupEventHandler.handle_member_join
        ⟨false, [⟨"999", none, "spam", "admin", 0, 0⟩]⟩
        (some "hello {user}") (false, "kick failed") true "111" "999").welcome = none :=
  (c1_blacklisted_never_welcomed ⟨false, [⟨"999", none, "spam", "admin", 0, 0⟩]⟩
      (some "hello {user}") (false, "kick failed") true "111" "999"
      (by decide) (by decide)).1

/-- C10: the blacklist membership check is fail-open. When every store
access raises, `is_in_blacklist` returns false instead of an error, so
the join handler treats the member as not blacklisted and emits a
welcome — whatever rows (including a blacklist entry for this very
user) the unreachable table holds. -/
theorem c10_blacklist_check_fail_open (rows : BlacklistTable) (welcome_msg : Option String)
    (kick_result : Bool × String) (should_notify : Bool) (group_id user_id : String)
    (hu : user_id ≠ "") :
    SunosDatabase.is_in_blacklist ⟨true, rows⟩ user_id (some group_id) = false
    ∧ (GroupEventHandler.handle_member_join ⟨true, rows⟩ welcome_msg kick_result
        should_notify group_id user_id).welcome.isSome = true
    ∧ (GroupEventHandler.handle_member_join ⟨true, rows⟩ welcome_msg kick_result
        should_notify group_id user_id).kick_attempted = false := by
  refine ⟨rfl, ?_, ?_⟩ <;>
    simp [GroupEventHandler.handle_member_join, BlacklistService.is_user_blacklisted,
      SunosDatabase.is_in_blacklist, hu]

/-- C10 witness: user 999 is globally blacklisted in the underlying
table, yet with a raising store the check returns false and the join
handler emits a welcome. -/
theorem c10_blacklist_check_fail_open_witness :
    SunosDatabase.is_in_blacklist ⟨true, [⟨"999", none, "spam", "admin", 0, 0⟩]⟩
        "999" (some "111") = false
    ∧ (GroupEventHandler.handle_member_join ⟨true, [⟨"999", none, "spam", "admin", 0, 0⟩]⟩
        none (true, "") true "111" "999").welcome.isSome = true := by
  have h := c10_blacklist_check_fail_open [⟨"999", none, "spam", "admin", 0, 0⟩]
    none (true, "") true "111" "999" (by decide)
  exact ⟨h.1, h.2.1⟩

/-- With a non-empty group id, a false membership check means in
particular that no group-scoped row for the pair exists. -/
theorem is_in_blacklist_false_group (db : SunosDatabase) (u g : String)
    (hdb : db.fails = false) (hg : g ≠ "")
    (h : SunosDatabase.is_in_blacklist db u (some g) = false) :
    db.blacklist.any (fun r => r.user_id == u && r.group_id == some g) = false := by
  unfold SunosDatabase.is_in_blacklist at h
  rw [hdb] at h
  simp only [Bool.false_eq_true, if_false] at h
  by_cases hglob : db.blacklist.any (fun r => r.user_id == u && r.group_id == none)
  · simp [hglob] at h
  · simpa [hglob, hg] using h

/-- When no group-scoped row for the pair exists, the upsert is a plain
append: the UNIQUE filter deletes nothing. -/
theorem blacklist_insert_no_conflict (rows : BlacklistTable)
    (u added_by reason : String) (g : String) (now : Nat)
    (hgrp : rows.any (fun r => r.user_id == u && r.group_id == some g) = false) :
    blacklist_insert_or_replace rows u added_by (some g) reason now
      = rows ++ [⟨u, some g, reason, added_by, now, now⟩] := by
  unfold blacklist_insert_or_replace
  congr 1
  apply List.filter_eq_self.mpr
  intro r hr
  rw [List.any_eq_false] at hgrp
  have hnr := hgrp r hr
  simp only [Bool.not_eq_true', blacklist_unique_conflict]
  cases hru : r.user_id == u
  · simp
  · simp only [Bool.true_and]
    match hgid : r.group_id with
    | none => rfl
    | some a =>
      cases hag : a == g
      · exact hag
      · exfalso
        apply hnr
        rw [hru, hgid]
        simp only [Bool.true_and]
        exact hag

/-- Service-level success case: on a healthy store, with a digits-only
user id, a valid reason and the pair not yet blacklisted, the service
appends exactly one group-scoped row. -/
theorem add_user_to_blacklist_ok (db : SunosDatabase) (u added_by g reason : String)
    (now : Nat)
    (hdb : db.fails = false)
    (hu : ValidationUtils.validate_user_id u = true)
    (hlen : ValidationUtils.validate_input_length reason 200 = true)
    (hg : g ≠ "")
    (hnb : SunosDatabase.is_in_blacklist db u (some g) = false) :
    BlacklistService.add_user_to_blacklist db u added_by (some g) reason now
      = ((true, "成功添加用户 " ++ u ++ " 到黑名单"),
         { db with blacklist := db.blacklist ++ [⟨u, some g, reason, added_by, now, now⟩] }) := by
  have hgrp := is_in_blacklist_false_group db u g hdb hg hnb
  unfold BlacklistService.add_user_to_blacklist
  rw [hu, hlen, hnb]
  simp only [Bool.true_eq_false, not_false_eq_true, Bool.false_eq_true, if_false, if_true,
    not_true_eq_false]
  unfold SunosDatabase.add_to_blacklist
  rw [hdb]
  simp only [Bool.false_eq_true, if_false]
  rw [blacklist_insert_no_conflict db.blacklist u added_by reason g now hgrp]

/-- Leave classification (src/core/handlers.py, `reason_map`): the
dict lookup with default; `kick_me` maps to None (the bot itself was
removed). -/
def reason_map (sub_type : String) : Option String :=
  if sub_type = "leave" then some "主动退群"
  else if sub_type = "kick" then some "被踢出群"
  else if sub_type = "kick_me" then none
  else some ("离开群聊(" ++ sub_type ++ ")")

/-- Observable effects of one run of the leave handler: the resulting
store, the composed departure notification (None when the handler
returned early because the bot itself was kicked), and whether the
throttle let the notification be yielded. -/
structure LeaveEffects where
  db : SunosDatabase
  notification_msg : Option String
  notification_sent : Bool
deriving DecidableEq, Repr

/-- GroupEventHandler.handle_member_leave (src/core/handlers.py):
classify `sub_type`; on `kick_me` do nothing; otherwise auto-blacklist
the departed user in this group unless already blacklisted, compose the
departure notification describing the outcome, and yield it when the
throttle (verdict `should_notify`, key `member_leave_<group_id>`)
allows. The except-branch of the auto-blacklisting (suffix 加入黑名单时出错)
is unreachable here because the modelled service never raises. -/
def GroupEventHandler.handle_member_leave (db : SunosDatabase) (should_notify : Bool)
    (now : Nat) (group_id user_id sub_type : String) : LeaveEffects :=
  match reason_map sub_type with
  | none => ⟨db, none, false⟩
  | some reason =>
    let base := "用户 " ++ user_id ++ " 离开了群聊"
    let step : SunosDatabase × String :=
      if reason ≠ "" then
        if ¬ BlacklistService.is_user_blacklisted db user_id (some group_id) then
          match BlacklistService.add_user_to_blacklist db user_id "system_auto"
              (some group_id) reason now with
          | ((true, _), db2) => (db2, base ++ "，已自动加入群黑名单")
          | ((false, _), db2) => (db2, base ++ "，加入黑名单失败")
        else (db, base ++ "，已在群黑名单中")
      else (db, base)
    ⟨step.1, some step.2, should_notify⟩

/-- C7: the leave handler. On `kick_me` (the bot itself was removed)
nothing is written and nothing is notified. For every other sub-type,
on a healthy store, with a digits-only user id, a non-empty group id, a
classification whose derived reason passes the length validation, and
the user not already blacklisted for this group, exactly one
group-scoped row with `added_by = "system_auto"` and the derived reason
is appended, and one departure notification reporting the successful
auto-blacklisting is composed and yielded exactly when the throttle
allows. The two equations for `reason_map` exhibit the derived
reasons for voluntary departure and kicks. -/
theorem c7_leave_auto_blacklist (db : SunosDatabase) (should_notify : Bool) (now : Nat)
    (group_id user_id sub_type : String) :
    GroupEventHandler.handle_member_leave db should_notify now group_id user_id "kick_me"
        = ⟨db, none, false⟩
    ∧ reason_map "leave" = some "主动退群"
    ∧ reason_map "kick" = some "被踢出群"
    ∧ (sub_type ≠ "kick_me" →
        db.fails = false →
        ValidationUtils.validate_user_id user_id = true →
        group_id ≠ "" →
        SunosDatabase.is_in_blacklist db user_id (some group_id) = false →
        (∀ r, reason_map sub_type = some r →
          ValidationUtils.validate_input_length r 200 = true) →
        ∃ reason, reason_map sub_type = some reason ∧
          (GroupEventHandler.handle_member_leave db should_notify now group_id user_id
              sub_type).db.blacklist
            = db.blacklist ++ [⟨user_id, some group_id, reason, "system_auto", now, now⟩]
          ∧ (GroupEventHandler.handle_member_leave db should_notify now group_id user_id
              sub_type).notification_msg
            = some ("用户 " ++ user_id ++ " 离开了群聊" ++ "，已自动加入群黑名单")
          ∧ (GroupEventHandler.handle_member_leave db should_notify now group_id user_id
              sub_type).notification_sent = should_notify) := by
  refine ⟨rfl, rfl, rfl, ?_⟩
  intro hst hdb hu hg hnb hlen
  obtain ⟨reason, hr⟩ : ∃ r, reason_map sub_type = some r := by
    unfold reason_map
    by_cases h1 : sub_type = "leave"
    · simp [h1]
    · by_cases h2 : sub_type = "kick"
      · simp [h1, h2]
      · by_cases h3 : sub_type = "kick_me"
        · exact absurd h3 hst
        · simp [h1, h2, h3]
  have hv := hlen reason hr
  have hne : reason ≠ "" := by
    intro he
    rw [he] at hv
    simp [ValidationUtils.validate_input_length] at hv
  refine ⟨reason, hr, ?_⟩
  have hsvc := add_user_to_blacklist_ok db user_id "system_auto" group_id reason now
    hdb hu hv hg hnb
  simp only [GroupEventHandler.handle_member_leave, hr,
    BlacklistService.is_user_blacklisted, hnb, hsvc]
  simp [hne]

/-- C7 witness: user 222 kicked from group 333 on a fresh healthy store:
one row `(222, 333, 被踢出群, system_auto)` is appended and the
notification is yielded. -/
theorem c7_leave_auto_blacklist_witness :
    (GroupEventHandler.handle_member_leave ⟨false, []⟩ true 5 "333" "222" "kick").db.blacklist
      = [⟨"222", some "333", "被踢出群", "system_auto", 5, 5⟩] := by
  obtain ⟨reason, hr, hrows, -⟩ :=
    (c7_leave_auto_blacklist ⟨false, []⟩ true 5 "333" "222" "kick").2.2.2
      (by decide) rfl (by decide) (by decide) (by decide)
      (by intro r hr; simp only [reason_map] at hr; simp at hr; rw [← hr]; decide)
  have : reason = "被踢出群" := by
    have := hr
    simp only [reason_map] at this
    simp at this
    exact this.symm
  rw [hrows, this]
  rfl

/-! ### OneBot HTTP adapter (src/core/onebot_adapter.py)

The request loop `OneBotAdapter._make_request` is modelled over a
script `outcomes : Nat → AttemptOutcome` giving the observable result of
the HTTP attempt with each index. A run returns the result (the parsed
response or the raised typed exception), the number of attempts
performed, and the total time slept between attempts. -/

/-- Decoded JSON body of a OneBot response; each field is optional,
matching `dict.get` with its documented default. The payload itself is
opaque here. -/
structure ResponseDict where
  status : Option String
  retcode : Option Int
  data : Option String
  message : Option String
deriving DecidableEq, Repr

/-- ApiResponse dataclass. -/
structure ApiResponse where
  success : Bool
  data : Option String
  error_message : String
deriving DecidableEq, Repr

/-- ApiResponse.from_dict: success is `status == "ok" and retcode == 0`
with defaults `"failed"` and `-1`. -/
def ApiResponse.from_dict (d : ResponseDict) : ApiResponse :=
  let success := d.status.getD "failed" == "ok" && d.retcode.getD (-1) == 0
  ⟨success, d.data, if success then "" else d.message.getD ""⟩

/-- Observable outcome of one HTTP attempt: a response with a status
code and (for the purposes of the modelled fields) its decoded JSON
body when the text decodes (`none` models undecodable or empty text at
the error branch, and a JSON decode failure at the success branch), a
connection failure, a timeout, or another client error. -/
inductive AttemptOutcome where
  | http (status : Nat) (body : Option ResponseDict)
  | connFailure (msg : String)
  | timeout
  | clientError (msg : String)
deriving DecidableEq, Repr

/-- Typed exceptions of the adapter: OneBotResponseError (carrying the
HTTP status when one exists), OneBotNetworkError, OneBotTimeoutError and
the base OneBotApiError. The human-readable `HTTP <status>: <reason>`
default message is modelled without the transport-level reason
phrase. -/
inductive ReqError where
  | responseError (msg : String) (status : Option Nat)
  | networkError (msg : String)
  | timeoutError (msg : String)
  | apiError (msg : String)
deriving DecidableEq, Repr

/-- Result of `_make_request`: the parsed response, or a raised typed
exception. -/
inductive ReqResult where
  | ok (resp : ApiResponse)
  | raised (e : ReqError)
deriving DecidableEq, Repr

/-- Error message attached to an HTTP error status: the decoded message
field when the body decodes and has one, else the default. -/
def http_error_msg (status : Nat) (body : Option ResponseDict) : String :=
  match body with
  | some d => (d.message).getD ("HTTP " ++ toString status)
  | none => "HTTP " ++ toString status

/-- Loop body of `OneBotAdapter._make_request` for
`for attempt in range(max_retries + 1)`. The fuel is the number of loop
iterations still available; exhausting it corresponds to falling out of
the loop onto the trailing `raise OneBotApiError(重试次数耗尽)`, which is
unreachable because a retry is only taken when `attempt < max_retries`.
Status `>= 500` retries while attempts remain, any other status
`>= 400` raises immediately, a body that fails to decode on a good
status raises without retrying, and connection failures, timeouts and
other client errors retry under the same bound. Each retry sleeps
`retry_delay`. -/
def make_request_go (max_retries : Nat) (retry_delay : ℚ)
    (outcomes : Nat → AttemptOutcome) : Nat → Nat → ReqResult × Nat × ℚ
  | _, 0 => (.raised (.apiError "重试次数耗尽"), 0, 0)
  | attempt, fuel + 1 =>
    match outcomes attempt with
    | .http status body =>
      if 400 ≤ status then
        if 500 ≤ status ∧ attempt < max_retries then
          let r := make_request_go max_retries retry_delay outcomes (attempt + 1) fuel
          (r.1, r.2.1 + 1, r.2.2 + retry_delay)
        else (.raised (.responseError (http_error_msg status body) (some status)), 1, 0)
      else
        match body with
        | none => (.raised (.responseError "响应JSON解析失败" none), 1, 0)
        | some d => (.ok (ApiResponse.from_dict d), 1, 0)
    | .connFailure m =>
      if attempt < max_retries then
        let r := make_request_go max_retries retry_delay outcomes (attempt + 1) fuel
        (r.1, r.2.1 + 1, r.2.2 + retry_delay)
      else (.raised (.networkError ("连接失败: " ++ m)), 1, 0)
    | .timeout =>
      if attempt < max_retries then
        let r := make_request_go max_retries retry_delay outcomes (attempt + 1) fuel
        (r.1, r.2.1 + 1, r.2.2 + retry_delay)
      else (.raised (.timeoutError "请求超时"), 1, 0)
    | .clientError m =>
      if attempt < max_retries then
        let r := make_request_go max_retries retry_delay outcomes (attempt + 1) fuel
        (r.1, r.2.1 + 1, r.2.2 + retry_delay)
      else (.raised (.apiError ("客户端错误: " ++ m)), 1, 0)

/-- OneBotAdapter._make_request: fail fast when the adapter was closed,
otherwise run the attempt loop from attempt 0 with `max_retries + 1`
available iterations. -/
def OneBotAdapter.make_request (max_retries : Nat) (retry_delay : ℚ) (closed : Bool)
    (outcomes : Nat → AttemptOutcome) : ReqResult × Nat × ℚ :=
  if closed then (.raised (.apiError "适配器已关闭"), 0, 0)
  else make_request_go max_retries retry_delay outcomes 0 (max_retries + 1)

/-- Classify an attempt outcome as retryable, returning the typed error
it raises once attempts are exhausted; HTTP statuses below 500 are not
retryable. -/
def retryable_error : AttemptOutcome → Option ReqError
  | .http status body =>
    if 500 ≤ status then some (.responseError (http_error_msg status body) (some status))
    else none
  | .connFailure m => some (.networkError ("连接失败: " ++ m))
  | .timeout => some (.timeoutError "请求超时")
  | .clientError m => some (.apiError ("客户端错误: " ++ m))

theorem make_request_go_all_retryable (max_retries : Nat) (retry_delay : ℚ)
    (outcomes : Nat → AttemptOutcome) (e : Nat → ReqError)
    (h : ∀ i, retryable_error (outcomes i) = some (e i)) :
    ∀ (fuel attempt : Nat), attempt + fuel = max_retries + 1 → attempt ≤ max_retries →
      make_request_go max_retries retry_delay outcomes attempt fuel
        = (.raised (e max_retries), fuel, (fuel - 1 : Nat) * retry_delay) := by
  intro fuel
  induction fuel with
  | zero => intro attempt hfa hle; omega
  | succ n ih =>
    intro attempt hfa hle
    by_cases hlt : attempt < max_retries
    · have hrec := ih (attempt + 1) (by omega) (by omega)
      have hn1 : 1 ≤ n := by omega
      have hq : ((n - 1 : Nat) : ℚ) * retry_delay + retry_delay
          = ((n + 1 - 1 : Nat) : ℚ) * retry_delay := by
        rw [Nat.add_sub_cancel, Nat.cast_sub hn1]
        push_cast
        ring
      cases hoc : outcomes attempt with
      | http status body =>
        have h5 : 500 ≤ status := by
          have hh := h attempt
          rw [hoc] at hh
          simp only [retryable_error] at hh
          by_contra hnot
          rw [if_neg hnot] at hh
          exact Option.noConfusion hh
        have h45 : 400 ≤ status := le_trans (by norm_num) h5
        simp only [make_request_go, hoc, if_pos h45, if_pos (And.intro h5 hlt), hrec,
          Prod.mk.injEq]
        simpa using hq
      | connFailure m =>
        simp only [make_request_go, hoc, if_pos hlt, hrec, Prod.mk.injEq]
        simpa using hq
      | timeout =>
        simp only [make_request_go, hoc, if_pos hlt, hrec, Prod.mk.injEq]
        simpa using hq
      | clientError m =>
        simp only [make_request_go, hoc, if_pos hlt, hrec, Prod.mk.injEq]
        simpa using hq
    · have hattempt : attempt = max_retries := by omega
      have hn0 : n = 0 := by omega
      subst hn0
      rw [hattempt]
      have he := h max_retries
      have hirr : ¬ max_retries < max_retries := lt_irrefl max_retries
      cases hoc : outcomes max_retries with
      | http status body =>
        rw [hoc] at he
        simp only [retryable_error] at he
        have h5 : 500 ≤ status := by
          by_contra hnot
          rw [if_neg hnot] at he
          exact Option.noConfusion he
        rw [if_pos h5] at he
        have hmsg := Option.some.inj he
        have h45 : 400 ≤ status := le_trans (by norm_num) h5
        have hno : ¬ (500 ≤ status ∧ max_retries < max_retries) := fun hand => hirr hand.2
        simp only [make_request_go, hoc, if_pos h45, if_neg hno, Prod.mk.injEq]
        rw [hmsg]
        norm_num
      | connFailure m =>
        rw [hoc] at he
        simp only [retryable_error] at he
        have hmsg := Option.some.inj he
        simp only [make_request_go, hoc, if_neg hirr, Prod.mk.injEq]
        rw [hmsg]
        norm_num
      | timeout =>
        rw [hoc] at he
        simp only [retryable_error] at he
        have hmsg := Option.some.inj he
        simp only [make_request_go, hoc, if_neg hirr, Prod.mk.injEq]
        rw [hmsg]
        norm_num
      | clientError m =>
        rw [hoc] at he
        simp only [retryable_error] at he
        have hmsg := Option.some.inj he
        simp only [make_request_go, hoc, if_neg hirr, Prod.mk.injEq]
        rw [hmsg]
        norm_num

/-- C5: the retry policy of `_make_request`. When every attempt yields
HTTP 500, the client performs `max_retries` retries after the first
attempt (so `max_retries + 1` attempts in total), sleeps `retry_delay`
between consecutive attempts (`max_retries` sleeps in total) and then
raises the typed response error of the last attempt. A status in
`[400, 500)` such as 404 on the first attempt raises immediately after
exactly one attempt with no sleep. Connection failures and timeouts are
retried under the same bound and surface their own typed errors. -/
theorem c5_retry_policy (max_retries : Nat) (retry_delay : ℚ) (s : Nat)
    (oc5 oc4 occ oct : Nat → AttemptOutcome)
    (h5 : ∀ i, oc5 i = .http 500 none)
    (h4 : oc4 0 = .http s none) (hs4 : 400 ≤ s) (hs5 : s < 500)
    (hc : ∀ i, occ i = .connFailure "refused")
    (ht : ∀ i, oct i = .timeout) :
    OneBotAdapter.make_request max_retries retry_delay false oc5
      = (.raised (.responseError ("HTTP " ++ toString 500) (some 500)),
         max_retries + 1, (max_retries : ℚ) * retry_delay)
    ∧ OneBotAdapter.make_request max_retries retry_delay false oc4
      = (.raised (.responseError ("HTTP " ++ toString s) (some s)), 1, 0)
    ∧ OneBotAdapter.make_request max_retries retry_delay false occ
      = (.raised (.networkError ("连接失败: " ++ "refused")),
         max_retries + 1, (max_retries : ℚ) * retry_delay)
    ∧ OneBotAdapter.make_request max_retries retry_delay false oct
      = (.raised (.timeoutError "请求超时"),
         max_retries + 1, (max_retries : ℚ) * retry_delay) := by
  have hcount : ((max_retries + 1 - 1 : Nat) : ℚ) = (max_retries : ℚ) := by
    norm_num
  refine ⟨?_, ?_, ?_, ?_⟩
  · have := make_request_go_all_retryable max_retries retry_delay oc5
      (fun _ => .responseError ("HTTP " ++ toString 500) (some 500))
      (fun i => by rw [h5 i]; rfl) (max_retries + 1) 0 (by omega) (by omega)
    simpa [OneBotAdapter.make_request, hcount] using this
  · simp only [OneBotAdapter.make_request, Bool.false_eq_true, if_false]
    cases hmr : max_retries + 1 with
    | zero => omega
    | succ n =>
      simp only [make_request_go, h4, if_pos hs4,
        if_neg (by omega : ¬ (500 ≤ s ∧ 0 < max_retries)), http_error_msg]
  · have := make_request_go_all_retryable max_retries retry_delay occ
      (fun _ => .networkError ("连接失败: " ++ "refused"))
      (fun i => by rw [hc i]; rfl) (max_retries + 1) 0 (by omega) (by omega)
    simpa [OneBotAdapter.make_request, hcount] using this
  · have := make_request_go_all_retryable max_retries retry_delay oct
      (fun _ => .timeoutError "请求超时")
      (fun i => by rw [ht i]; rfl) (max_retries + 1) 0 (by omega) (by omega)
    simpa [OneBotAdapter.make_request, hcount] using this

/-- C5 witness: with the default configuration `max_retries = 3`,
`retry_delay = 1`, a server that always answers 500 costs four attempts
and three seconds of sleep before the typed failure, and a 404 fails
after a single attempt. -/
theorem c5_retry_policy_witness :
    OneBotAdapter.make_request 3 1 false (fun _ => .http 500 none)
      = (.raised (.responseError ("HTTP " ++ toString 500) (some 500)), 3 + 1, (3 : ℚ) * 1)
    ∧ OneBotAdapter.make_request 3 1 false (fun _ => .http 404 none)
      = (.raised (.responseError ("HTTP " ++ toString 404) (some 404)), 1, 0) := by
  have h := c5_retry_policy 3 1 404
    (fun _ => .http 500 none) (fun _ => .http 404 none)
    (fun _ => .connFailure "refused") (fun _ => .timeout)
    (fun _ => rfl) rfl (by norm_num) (by norm_num)
    (fun _ => rfl) (fun _ => rfl)
  exact ⟨by simpa using h.1, h.2.1⟩

/-- Python `int(s)` success test for a decimal string: optional
surrounding whitespace, an optional sign, then a non-empty digit run
(the underscore digit separators Python also accepts are not
modelled). -/
def py_int_ok (s : String) : Bool :=
  let digits :=
    match (py_strip s).data with
    | '+' :: ds => ds
    | '-' :: ds => ds
    | ds => ds
  !digits.isEmpty && digits.all py_is_digit

/-- Outcome of `OneBotAdapter.kick_group_member` as seen by its caller:
either the normal `(success, message)` return value, or an escaped
`ValueError`. Only `OneBotApiError` is caught in the method, so the
`ValueError` raised by `int()` on a non-numeric id propagates out
unclassified; the adapter defines no validation-error type at all. -/
inductive KickOutcome where
  | returned (success : Bool) (msg : String)
  | uncaughtValueError
deriving DecidableEq, Repr

/-- Message text of a raised typed adapter error (`str(e)` on the
exception). -/
def ReqError.text : ReqError → String
  | .responseError m _ => m
  | .networkError m => m
  | .timeoutError m => m
  | .apiError m => m

/-- OneBotAdapter.kick_group_member (src/core/onebot_adapter.py): build
the request payload with `int(group_id)` and `int(user_id)` — raising
`ValueError` before any network I/O when either is non-numeric — then
issue `set_group_kick` and translate the result; raised
`OneBotApiError` subtypes are caught and returned as a failure pair.
The second component records whether the request layer was reached. -/
def OneBotAdapter.kick_group_member (group_id user_id : String)
    (request_result : ReqResult) : KickOutcome × Bool :=
  if ¬ py_int_ok group_id || ¬ py_int_ok user_id then
    (.uncaughtValueError, false)
  else
    match request_result with
    | .ok resp =>
      if resp.success then (.returned true ("成功踢出群成员 " ++ user_id), true)
      else (.returned false ("踢出群成员失败: " ++ resp.error_message), true)
    | .raised e => (.returned false ("踢出群成员异常: " ++ e.text), true)

/-- C6 counterexample: kicking with the non-numeric user id `"abc"` does
not produce a typed validation failure for the caller — the call ends in
an escaped, unclassified `ValueError` (and the request layer is indeed
never reached). The claimed `ValidationError` outcome does not exist in
the adapter. -/
theorem c6_counterexample :
    OneBotAdapter.kick_group_member "456" "abc" (.ok ⟨true, none, ""⟩)
      = (KickOutcome.uncaughtValueError, false) := by
  decide

/-- C6 amended: a non-numeric id on either parameter makes
`kick_group_member` fail before any network I/O, but by an uncaught
builtin `ValueError` from `int()` that propagates to the caller
unclassified; no typed validation failure is returned. With numeric ids
the request layer is always reached. -/
theorem c6_kick_id_validation (group_id user_id : String) (request_result : ReqResult)
    (h : py_int_ok group_id = false ∨ py_int_ok user_id = false) :
    OneBotAdapter.kick_group_member group_id user_id request_result
      = (KickOutcome.uncaughtValueError, false) := by
  unfold OneBotAdapter.kick_group_member
  rcases h with h | h <;> simp [h]

/-- C6 witness: the amended statement applied to the id `"abc"`. -/
theorem c6_kick_id_validation_witness :
    OneBotAdapter.kick_group_member "456" "abc" (.raised (.timeoutError "请求超时"))
      = (KickOutcome.uncaughtValueError, false) :=
  c6_kick_id_validation "456" "abc" (.raised (.timeoutError "请求超时"))
    (Or.inr (by decide))

/-! ### Permission resolution (src/core/permissions.py) -/

/-- Static metadata attached to an event by the transport layer: the
optional group owner id and the list of admin ids. -/
structure PlatformMeta where
  owner_id : Option String
  group_admins : List String
deriving DecidableEq, Repr

/-- PermissionManager._check_platform_meta_admin: the user is elevated
when a truthy owner id equals the user id, or when the admin list is
truthy (non-empty) and contains the user id; an absent metadata object
yields false. -/
def check_platform_meta_admin (meta : Option PlatformMeta) (user_id : String) : Bool :=
  match meta with
  | none => false
  | some m =>
    let owner_hit :=
      match m.owner_id with
      | some o => (o ≠ "") && (user_id == o)
      | none => false
    if owner_hit then true
    else (!m.group_admins.isEmpty) && m.group_admins.contains user_id

/-- Observable outcome of the live `get_group_member_info` lookup inside
`_is_group_admin_async`: the call path may be unavailable (wrong
platform, missing client, exception — all logged and swallowed), the
call may return a falsy result, or it may return member info whose role
field (default `member`) is extracted. -/
inductive ApiLookup where
  | unavailable
  | emptyResult
  | ok (role : String)
deriving DecidableEq, Repr

/-- Cache-miss body of `PermissionManager._is_group_admin_async`
(src/core/permissions.py): when the live lookup returns an elevated
role the method returns (and caches) true immediately; in EVERY other
case — including a definitive `member` answer from the platform — it
falls through to `_check_platform_meta_admin` and returns (and caches)
that verdict. The cache and lock bookkeeping carry no decision logic
and are omitted. -/
def PermissionManager.is_group_admin_async (user_id : String) (lookup : ApiLookup)
    (meta : Option PlatformMeta) : Bool :=
  if user_id = "" then false
  else
    match lookup with
    | .ok role =>
      if role = "owner" || role = "admin" then true
      else check_platform_meta_admin meta user_id
    | _ => check_platform_meta_admin meta user_id

/-- C3 (code bug): a definitive `member` answer from the live lookup is
NOT trusted as a negative result. The resolver falls through to the
static-metadata fallback even though the lookup succeeded, so a user
whom the platform definitively reports as a plain member is still
classified as a group admin whenever the stale metadata lists them —
contradicting both the specification and the code comment that reserves
the fallback for failed lookups. Elevated roles are honoured as
claimed, and the two fallback equalities exhibit the unconditional
fall-through on a `member` answer (owner-id metadata and admin-list
metadata). -/
theorem c3_member_response_not_trusted :
    PermissionManager.is_group_admin_async "42" (.ok "member")
        (some ⟨none, ["42"]⟩) = true
    ∧ PermissionManager.is_group_admin_async "42" (.ok "owner") none = true
    ∧ PermissionManager.is_group_admin_async "42" (.ok "admin") none = true
    ∧ PermissionManager.is_group_admin_async "42" (.ok "member") (some ⟨some "42", []⟩)
        = check_platform_meta_admin (some ⟨some "42", []⟩) "42"
    ∧ PermissionManager.is_group_admin_async "42" (.ok "member") none = false := by
  refine ⟨by decide, by decide, by decide, rfl, by decide⟩

end Sunos
